import Mathlib

/-!
Shallow embedding of the `SocketService` class from
`src/services/apiService.ts` (the socket-client portion of the file):
connection lifecycle with reconnect backoff, inbound frame routing,
latency tracking and the stats snapshot.

Modelling conventions:
* machine numbers are `Nat` / `Int`; the floating-point average and the
  jittered delay are exact rationals (`ℚ`);
* JS `Date` parsing (`new Date(s).getTime()`) is an abstract parameter
  `parse : String → Int`;
* a push payload is either `null`/`undefined` or an object whose only
  field relevant to this logic is the optional `timestamp` string;
  accessing `.timestamp` on `null` throws, which is modelled with
  `Except Unit`;
* `window.dispatchEvent(new CustomEvent(name, detail))` is modelled as a
  `Notification` value carrying the channel name and the detail fields.
-/

namespace Sock

/-- The `SocketStats` record of the source (field `averageLatency` is a JS
number, modelled exactly as a rational; `uptimeSeconds` as an integer). -/
structure SocketStats where
  eventsReceived : Nat
  questionsReceived : Nat
  averageLatency : ℚ
  isConnected : Bool
  uptimeSeconds : Int
  lastEventTime : Option String
deriving Repr, DecidableEq

/-- The value returned by `calculateLatency` when a sample is recorded. -/
structure LatencyInfo where
  latencyMs : Int
  eventTimestamp : String
deriving Repr, DecidableEq

/-- A push-frame payload as the handlers see it: `null` stands for a JS
`null`/`undefined` payload; `obj ts` is an object whose `timestamp` field
is absent (`none`) or the string `t` (`some t`).  Other payload fields are
opaque to the socket service and are not modelled. -/
inductive EventData where
  | null : EventData
  | obj : Option String → EventData
deriving Repr, DecidableEq

/-- One `window.dispatchEvent(new CustomEvent(channel, ...))` call: the
local notification republished to the page, with its detail fields. -/
structure Notification where
  channel : String
  eventType : String
  data : EventData
  latency : Option LatencyInfo
deriving Repr, DecidableEq

/-- Externally visible actions of the client other than local
notifications: outbound transport emits, reconnect timers being set
(`setTimer` carries the post-increment attempt number and the computed
delay), and a timer callback invoking `connect()`. -/
inductive Action where
  | emit : String → Option String → Action
  | setTimer : Nat → ℚ → Action
  | callConnect : Action
deriving Repr, DecidableEq

/-- The mutable fields of the `SocketService` class.  `socketExists`
models `this.socket !== null`; `pendingTimers` is event-loop bookkeeping
(the number of outstanding `setTimeout` callbacks scheduled by
`scheduleReconnect`), not a class field — the class itself stores no
timer handle. -/
structure SocketState where
  socketExists : Bool
  isConnected : Bool
  reconnectAttempts : Nat
  maxReconnectAttempts : Nat
  reconnectDelay : ℚ
  stats : SocketStats
  latencyMeasurements : List Int
  connectionTime : Option Int
  pendingTimers : Nat
deriving Repr, DecidableEq

/-- Field initialisers of the class. -/
def initialState : SocketState :=
  { socketExists := false
    isConnected := false
    reconnectAttempts := 0
    maxReconnectAttempts := 10
    reconnectDelay := 1000
    stats :=
      { eventsReceived := 0
        questionsReceived := 0
        averageLatency := 0
        isConnected := false
        uptimeSeconds := 0
        lastEventTime := none }
    latencyMeasurements := []
    connectionTime := none
    pendingTimers := 0 }

/-- `calculateLatency(eventData)`.  The guard `if (!eventData.timestamp)
return null` treats an absent field and the empty string (both falsy in
JS) alike; accessing `.timestamp` on a `null`/`undefined` payload throws
a `TypeError`, modelled as `Except.error ()`.  On a truthy timestamp the
sample `receiveTime − eventTime` is pushed (no clamping) and
`stats.averageLatency` is recomputed as
`reduce((a,b) => a+b, 0) / length` over the whole retained sequence. -/
def calculateLatency (parse : String → Int) (s : SocketState)
    (eventData : EventData) (receiveTime : Int) :
    Except Unit (SocketState × Option LatencyInfo) :=
  match eventData with
  | .null => .error ()
  | .obj none => .ok (s, none)
  | .obj (some t) =>
    if t = "" then .ok (s, none)
    else
      let eventTime := parse t
      let latency := receiveTime - eventTime
      let meas := s.latencyMeasurements ++ [latency]
      let avg : ℚ := ((meas.foldl (· + ·) 0 : Int) : ℚ) / (meas.length : ℚ)
      .ok ({ s with
              latencyMeasurements := meas
              stats := { s.stats with averageLatency := avg } },
           some { latencyMs := latency, eventTimestamp := t })

/-- Result of running one inbound-frame handler: the updated state, the
local notifications dispatched (in order), and whether the handler threw.
JS exceptions do not roll back the mutations already performed. -/
structure HandleResult where
  state : SocketState
  notifs : List Notification
  threw : Bool
deriving Repr, DecidableEq

/-- `handleEvent(eventType, data)`: increments `eventsReceived`, stamps
`lastEventTime`, computes latency, then dispatches one CustomEvent named
`socket-event`.  If `calculateLatency` throws, the dispatch is never
reached but the counter updates persist. -/
def handleEvent (parse : String → Int) (s : SocketState)
    (eventType : String) (data : EventData)
    (nowIso : String) (receiveTime : Int) : HandleResult :=
  let s1 := { s with
    stats := { s.stats with
      eventsReceived := s.stats.eventsReceived + 1
      lastEventTime := some nowIso } }
  match calculateLatency parse s1 data receiveTime with
  | .error () => { state := s1, notifs := [], threw := true }
  | .ok (s2, lat) =>
    { state := s2
      notifs := [{ channel := "socket-event", eventType := eventType,
                   data := data, latency := lat }]
      threw := false }

/-- `handleQuestionEvent(eventType, data)`: increments both
`questionsReceived` and `eventsReceived`, stamps `lastEventTime`,
computes latency, then dispatches one CustomEvent named
`socket-question`. -/
def handleQuestionEvent (parse : String → Int) (s : SocketState)
    (eventType : String) (data : EventData)
    (nowIso : String) (receiveTime : Int) : HandleResult :=
  let s1 := { s with
    stats := { s.stats with
      questionsReceived := s.stats.questionsReceived + 1
      eventsReceived := s.stats.eventsReceived + 1
      lastEventTime := some nowIso } }
  match calculateLatency parse s1 data receiveTime with
  | .error () => { state := s1, notifs := [], threw := true }
  | .ok (s2, lat) =>
    { state := s2
      notifs := [{ channel := "socket-question", eventType := eventType,
                   data := data, latency := lat }]
      threw := false }

/-- The five match event names given dedicated listeners in
`setupEventListeners`. -/
def matchEventNames : List String :=
  ["matches:data", "matches:update", "matches:live", "matches:new",
   "matches:finished"]

/-- The two question event names given dedicated listeners in
`setupEventListeners`. -/
def questionEventNames : List String :=
  ["questions:generated", "questions:new"]

/-- Whether the character list `s` begins with the character list `p`. -/
def charsStartWith : List Char → List Char → Bool
  | _, [] => true
  | [], _ :: _ => false
  | c :: cs, d :: ds => c == d && charsStartWith cs ds

/-- The JS `s.startsWith(p)` test, on the underlying character lists. -/
def strStartsWith (s p : String) : Bool := charsStartWith s.data p.data

/-- Routing of one inbound frame by `setupEventListeners`: the named
listeners forward the five `matches:*` names to `handleEvent` and the two
`questions:*` names to `handleQuestionEvent`; the `onAny` catch-all
forwards a name to `handleEvent` only when it starts with neither
`matches:` nor `questions:`.  A name that starts with one of the two
prefixes but is not among the registered names reaches no handler. -/
def onFrame (parse : String → Int) (s : SocketState)
    (name : String) (data : EventData)
    (nowIso : String) (receiveTime : Int) : HandleResult :=
  if name ∈ matchEventNames then
    handleEvent parse s name data nowIso receiveTime
  else if name ∈ questionEventNames then
    handleQuestionEvent parse s name data nowIso receiveTime
  else if ¬ strStartsWith name "matches:" ∧ ¬ strStartsWith name "questions:" then
    handleEvent parse s name data nowIso receiveTime
  else
    { state := s, notifs := [], threw := false }

/-- JS `Math.min` on two exact numbers. -/
def jsMin (a b : ℚ) : ℚ := if a ≤ b then a else b

/-- The delay expression of `scheduleReconnect` for the post-increment
attempt number `attempt`:
`Math.min(reconnectDelay * Math.pow(2, attempt - 1), 30000) + Math.random() * 1000`,
with the value of `Math.random() * 1000` abstracted as `jitter` (so
`0 ≤ jitter < 1000` for any actual run). -/
def delayFor (reconnectDelay : ℚ) (attempt : Nat) (jitter : ℚ) : ℚ :=
  jsMin (reconnectDelay * ((2 ^ (attempt - 1) : ℕ) : ℚ)) 30000 + jitter

/-- `scheduleReconnect()`: unconditionally increments `reconnectAttempts`,
computes the jittered delay, and sets a timeout (one more pending timer).
The guard on actually calling `connect()` lives in the timer callback,
not here. -/
def scheduleReconnect (s : SocketState) (jitter : ℚ) :
    SocketState × List Action :=
  let att := s.reconnectAttempts + 1
  ({ s with reconnectAttempts := att, pendingTimers := s.pendingTimers + 1 },
   [.setTimer att (delayFor s.reconnectDelay att jitter)])

/-- The body of `connect()` before any transport outcome: `this.socket =
io(...)` assigns a fresh socket object (and the lifecycle handlers are
registered on it).  No command is emitted. -/
def connectCalled (s : SocketState) : SocketState × List Action :=
  ({ s with socketExists := true }, [])

/-- The `connect` handler (handshake success): sets the connected flags,
resets the attempt counter to 0, records the connection start instant,
and registers the event listeners.  It emits no commands. -/
def onConnect (s : SocketState) (nowMs : Int) : SocketState × List Action :=
  ({ s with
      isConnected := true
      reconnectAttempts := 0
      connectionTime := some nowMs
      stats := { s.stats with isConnected := true } },
   [])

/-- The `connect_error` handler: clears the connected flags and schedules
a reconnect only while `reconnectAttempts < maxReconnectAttempts`. -/
def onConnectError (s : SocketState) (jitter : ℚ) :
    SocketState × List Action :=
  let s1 := { s with
    isConnected := false
    stats := { s.stats with isConnected := false } }
  if s1.reconnectAttempts < s1.maxReconnectAttempts then
    scheduleReconnect s1 jitter
  else (s1, [])

/-- The `disconnect` handler: clears the connected flags and, for every
reason other than the explicit-close reason `io client disconnect`,
schedules a reconnect — with no check against the attempt maximum. -/
def onDisconnect (s : SocketState) (reason : String) (jitter : ℚ) :
    SocketState × List Action :=
  let s1 := { s with
    isConnected := false
    stats := { s.stats with isConnected := false } }
  if reason ≠ "io client disconnect" then scheduleReconnect s1 jitter
  else (s1, [])

/-- The `setTimeout` callback set by `scheduleReconnect`: when the timer
elapses it calls `connect()` again provided
`reconnectAttempts <= maxReconnectAttempts`; nothing cancels the timer
beforehand (the class stores no timer handle). -/
def timerFire (s : SocketState) : SocketState × List Action :=
  let s1 := { s with pendingTimers := s.pendingTimers - 1 }
  if s1.reconnectAttempts ≤ s1.maxReconnectAttempts then
    (s1, [.callConnect])
  else (s1, [])

/-- The public `disconnect()` method: tears the socket down (the
transport-level disconnect this causes reaches `onDisconnect` with reason
`io client disconnect`), nulls the socket reference and clears the
connected flags.  It touches neither `reconnectAttempts`,
`connectionTime`, nor any pending timer. -/
def disconnect (s : SocketState) : SocketState × List Action :=
  ({ s with
      socketExists := false
      isConnected := false
      stats := { s.stats with isConnected := false } },
   [])

/-- `subscribeToLiveMatches()`: returns `false` without any effect unless
a socket exists and is connected; otherwise emits `matches:subscribe`. -/
def subscribeToLiveMatches (s : SocketState) :
    Bool × SocketState × List Action :=
  if ¬ s.socketExists ∨ ¬ s.isConnected then (false, s, [])
  else (true, s, [.emit "matches:subscribe" none])

/-- `unsubscribeFromLiveMatches()`. -/
def unsubscribeFromLiveMatches (s : SocketState) :
    Bool × SocketState × List Action :=
  if ¬ s.socketExists ∨ ¬ s.isConnected then (false, s, [])
  else (true, s, [.emit "matches:unsubscribe" none])

/-- `requestCurrentMatches()`. -/
def requestCurrentMatches (s : SocketState) :
    Bool × SocketState × List Action :=
  if ¬ s.socketExists ∨ ¬ s.isConnected then (false, s, [])
  else (true, s, [.emit "matches:request" none])

/-- `subscribeToQuestions(matchId)`: returns `false` without any effect
(the topic is not retained anywhere) unless a socket exists and is
connected; otherwise emits `questions:subscribe` with the match id. -/
def subscribeToQuestions (s : SocketState) (matchId : String) :
    Bool × SocketState × List Action :=
  if ¬ s.socketExists ∨ ¬ s.isConnected then (false, s, [])
  else (true, s, [.emit "questions:subscribe" (some matchId)])

/-- `unsubscribeFromQuestions(matchId)`. -/
def unsubscribeFromQuestions (s : SocketState) (matchId : String) :
    Bool × SocketState × List Action :=
  if ¬ s.socketExists ∨ ¬ s.isConnected then (false, s, [])
  else (true, s, [.emit "questions:unsubscribe" (some matchId)])

/-- `getStats()`: returns a copy of `stats` with `uptimeSeconds`
recomputed as `Math.floor((Date.now() - connectionTime.getTime()) / 1000)`
when a connection instant was ever recorded, else `0`.  The state is
returned unchanged (pure read). -/
def getStats (s : SocketState) (nowMs : Int) : SocketStats × SocketState :=
  ({ s.stats with
      uptimeSeconds :=
        match s.connectionTime with
        | some ct => Int.fdiv (nowMs - ct) 1000
        | none => 0 },
   s)

/-- One externally triggered operation on the client: a lifecycle event
delivered by the transport or event loop, an inbound push frame, or a
public method call. -/
inductive SockOp where
  | connectCalled : SockOp
  | connectOk : Int → SockOp
  | connectError : ℚ → SockOp
  | disconnectEvt : String → ℚ → SockOp
  | timerFire : SockOp
  | disconnectCall : SockOp
  | frame : String → EventData → String → Int → SockOp
  | subscribeLive : SockOp
  | unsubscribeLive : SockOp
  | requestMatches : SockOp
  | subscribeQuestions : String → SockOp
  | unsubscribeQuestions : String → SockOp
  | statsCall : Int → SockOp
deriving Repr, DecidableEq

/-- Effect of one operation: next state, actions, local notifications. -/
def step (parse : String → Int) (s : SocketState) :
    SockOp → SocketState × List Action × List Notification
  | .connectCalled => let (s', a) := connectCalled s; (s', a, [])
  | .connectOk now => let (s', a) := onConnect s now; (s', a, [])
  | .connectError j => let (s', a) := onConnectError s j; (s', a, [])
  | .disconnectEvt r j => let (s', a) := onDisconnect s r j; (s', a, [])
  | .timerFire => let (s', a) := timerFire s; (s', a, [])
  | .disconnectCall => let (s', a) := disconnect s; (s', a, [])
  | .frame name data iso now =>
      let r := onFrame parse s name data iso now
      (r.state, [], r.notifs)
  | .subscribeLive => let (_, s', a) := subscribeToLiveMatches s; (s', a, [])
  | .unsubscribeLive =>
      let (_, s', a) := unsubscribeFromLiveMatches s; (s', a, [])
  | .requestMatches => let (_, s', a) := requestCurrentMatches s; (s', a, [])
  | .subscribeQuestions m =>
      let (_, s', a) := subscribeToQuestions s m; (s', a, [])
  | .unsubscribeQuestions m =>
      let (_, s', a) := unsubscribeFromQuestions s m; (s', a, [])
  | .statsCall now => let (_, s') := getStats s now; (s', [], [])

/-- Final state after a sequence of operations. -/
def runTrace (parse : String → Int) (s : SocketState) :
    List SockOp → SocketState
  | [] => s
  | op :: ops => runTrace parse (step parse s op).1 ops

/-- Final state together with the concatenated action and notification
logs of a sequence of operations, in order. -/
def runLog (parse : String → Int) (s : SocketState) :
    List SockOp → SocketState × List Action × List Notification
  | [] => (s, [], [])
  | op :: ops =>
    let (s1, a1, n1) := step parse s op
    let (s2, a2, n2) := runLog parse s1 ops
    (s2, a1 ++ a2, n1 ++ n2)

/-- Whether an action is a reconnect timer being set. -/
def Action.isSetTimer : Action → Bool
  | .setTimer _ _ => true
  | _ => false

/-- Whether an action is an outbound transport emit. -/
def Action.isEmit : Action → Bool
  | .emit _ _ => true
  | _ => false

/-- An inbound push frame together with its receipt metadata. -/
structure Frame where
  name : String
  data : EventData
  nowIso : String
  receivedAt : Int
deriving Repr, DecidableEq

/-- Sequential processing of a list of inbound frames, collecting the
republished notifications in arrival order. -/
def runFrames (parse : String → Int) (s : SocketState) :
    List Frame → SocketState × List Notification
  | [] => (s, [])
  | f :: fs =>
    let r := onFrame parse s f.name f.data f.nowIso f.receivedAt
    let (s', ns) := runFrames parse r.state fs
    (s', r.notifs ++ ns)

/-- Names the `setupEventListeners` routing sends to `handleEvent`: the
five registered match names plus every name with neither reserved
name-space. -/
def isHandledGeneric (name : String) : Bool :=
  matchEventNames.contains name ||
    (!strStartsWith name "matches:" && !strStartsWith name "questions:")

/-- A fixed date-parse function for concrete evaluations (every string
parses to instant 0). -/
def parse0 : String → Int := fun _ => 0

/-- A fixed date-parse function for concrete evaluations (every string
parses to instant 100), used to exhibit a negative latency sample. -/
def parse100 : String → Int := fun _ => 100

lemma jsMin_le_left (a b : ℚ) : jsMin a b ≤ a := by
  unfold jsMin
  split_ifs with h
  · exact le_refl a
  · exact le_of_not_le h

lemma jsMin_le_right (a b : ℚ) : jsMin a b ≤ b := by
  unfold jsMin
  split_ifs with h
  · exact h
  · exact le_refl b

end Sock

/-- C4: the claim's lower interval end fails at attempt 6: with jitter 0
the computed delay is the cap 30000, strictly below the claimed lower
bound base×growth^(6−1) = 32000 (the claimed interval [32000, 31000) is
in fact empty). -/
theorem C4_counterexample :
    Sock.delayFor 1000 6 0 = 30000 ∧
    (1000 : ℚ) * ((2 ^ (6 - 1) : ℕ) : ℚ) = 32000 ∧
    ¬ ((1000 : ℚ) * ((2 ^ (6 - 1) : ℕ) : ℚ) ≤ Sock.delayFor 1000 6 0) := by
  norm_num [Sock.delayFor, Sock.jsMin]

/-- C4 (amended): for every reconnect attempt k (1-indexed, base 1000,
growth 2, cap 30000, jitter bound 1000) the computed delay lies in the
half-open interval from min(base×growth^(k−1), cap) inclusive to
min(base×growth^(k−1), cap) + jitterBound exclusive, and is always
≤ cap + jitterBound. -/
theorem C4_theorem (k : Nat) (j : ℚ) (hk : 1 ≤ k) (hj0 : 0 ≤ j)
    (hj1 : j < 1000) :
    Sock.jsMin (1000 * ((2 ^ (k - 1) : ℕ) : ℚ)) 30000 ≤ Sock.delayFor 1000 k j ∧
    Sock.delayFor 1000 k j <
      Sock.jsMin (1000 * ((2 ^ (k - 1) : ℕ) : ℚ)) 30000 + 1000 ∧
    Sock.delayFor 1000 k j ≤ 30000 + 1000 := by
  have hcap := Sock.jsMin_le_right (1000 * ((2 ^ (k - 1) : ℕ) : ℚ)) 30000
  unfold Sock.delayFor
  exact ⟨by linarith, by linarith, by linarith⟩

/-- C4 witness: the amended bounds instantiated at attempt 1 with
jitter 0. -/
theorem C4_witness :
    (1 ≤ 1 ∧ (0 : ℚ) ≤ 0 ∧ (0 : ℚ) < 1000) ∧
    (Sock.jsMin (1000 * ((2 ^ (1 - 1) : ℕ) : ℚ)) 30000 ≤ Sock.delayFor 1000 1 0 ∧
     Sock.delayFor 1000 1 0 <
       Sock.jsMin (1000 * ((2 ^ (1 - 1) : ℕ) : ℚ)) 30000 + 1000 ∧
     Sock.delayFor 1000 1 0 ≤ 30000 + 1000) :=
  ⟨⟨le_refl 1, le_refl 0, by norm_num⟩,
   C4_theorem 1 0 (le_refl 1) (le_refl 0) (by norm_num)⟩

/-- C7: a push whose payload carries a truthy origin timestamp appends
the unclamped sample receivedAt − originTimestamp (also through the two
event handlers) and the recorded average equals the arithmetic mean of
the entire retained sequence; a payload with an absent (or empty, hence
falsy) timestamp appends nothing and yields no latency value. -/
theorem C7_theorem (parse : String → Int) (s : Sock.SocketState)
    (t et iso : String) (now : Int) (ht : t ≠ "") :
    Sock.calculateLatency parse s (.obj (some t)) now =
      .ok ({ s with
              latencyMeasurements := s.latencyMeasurements ++ [now - parse t]
              stats := { s.stats with averageLatency :=
                (((s.latencyMeasurements ++ [now - parse t]).sum : Int) : ℚ) /
                  ((s.latencyMeasurements ++ [now - parse t]).length : ℚ) } },
           some { latencyMs := now - parse t, eventTimestamp := t }) ∧
    (Sock.handleEvent parse s et (.obj (some t)) iso now).state.latencyMeasurements =
      s.latencyMeasurements ++ [now - parse t] ∧
    (Sock.handleQuestionEvent parse s et (.obj (some t)) iso now).state.latencyMeasurements =
      s.latencyMeasurements ++ [now - parse t] ∧
    Sock.calculateLatency parse s (.obj none) now = .ok (s, none) ∧
    Sock.calculateLatency parse s (.obj (some "")) now = .ok (s, none) := by
  refine ⟨?_, ?_, ?_, rfl, rfl⟩
  · simp [Sock.calculateLatency, ht, List.sum_eq_foldl]
  · simp [Sock.handleEvent, Sock.calculateLatency, ht]
  · simp [Sock.handleQuestionEvent, Sock.calculateLatency, ht]

/-- C7 witness: at parse instant 100 and receipt instant 40 the recorded
sample is the negative, unclamped −60 and the average over the singleton
history is −60. -/
theorem C7_witness :
    ("jan" ≠ "") ∧
    (Sock.calculateLatency Sock.parse100 Sock.initialState (.obj (some "jan")) 40 =
      .ok ({ Sock.initialState with
              latencyMeasurements :=
                Sock.initialState.latencyMeasurements ++ [40 - Sock.parse100 "jan"]
              stats := { Sock.initialState.stats with averageLatency :=
                (((Sock.initialState.latencyMeasurements ++
                    [40 - Sock.parse100 "jan"]).sum : Int) : ℚ) /
                  ((Sock.initialState.latencyMeasurements ++
                    [40 - Sock.parse100 "jan"]).length : ℚ) } },
           some { latencyMs := 40 - Sock.parse100 "jan", eventTimestamp := "jan" }) ∧
     (Sock.handleEvent Sock.parse100 Sock.initialState "matches:data"
        (.obj (some "jan")) "iso" 40).state.latencyMeasurements =
       Sock.initialState.latencyMeasurements ++ [40 - Sock.parse100 "jan"] ∧
     (Sock.handleQuestionEvent Sock.parse100 Sock.initialState "questions:new"
        (.obj (some "jan")) "iso" 40).state.latencyMeasurements =
       Sock.initialState.latencyMeasurements ++ [40 - Sock.parse100 "jan"] ∧
     Sock.calculateLatency Sock.parse100 Sock.initialState (.obj none) 40 =
       .ok (Sock.initialState, none) ∧
     Sock.calculateLatency Sock.parse100 Sock.initialState (.obj (some "")) 40 =
       .ok (Sock.initialState, none)) :=
  ⟨by decide,
   C7_theorem Sock.parse100 Sock.initialState "jan" "matches:data" "iso" 40 (by decide)⟩

lemma handleEvent_core (parse : String → Int) (s : Sock.SocketState)
    (et : String) (d : Sock.EventData) (iso : String) (now : Int) :
    (Sock.handleEvent parse s et d iso now).state.stats.eventsReceived =
        s.stats.eventsReceived + 1 ∧
    (Sock.handleEvent parse s et d iso now).state.stats.questionsReceived =
        s.stats.questionsReceived ∧
    (Sock.handleEvent parse s et d iso now).state.stats.lastEventTime = some iso ∧
    (Sock.handleEvent parse s et d iso now).state.stats.isConnected =
        s.stats.isConnected ∧
    (Sock.handleEvent parse s et d iso now).state.connectionTime = s.connectionTime ∧
    (Sock.handleEvent parse s et d iso now).state.reconnectAttempts =
        s.reconnectAttempts ∧
    (Sock.handleEvent parse s et d iso now).state.pendingTimers = s.pendingTimers ∧
    (Sock.handleEvent parse s et d iso now).state.isConnected = s.isConnected ∧
    (Sock.handleEvent parse s et d iso now).state.socketExists = s.socketExists := by
  cases d with
  | null => exact ⟨rfl, rfl, rfl, rfl, rfl, rfl, rfl, rfl, rfl⟩
  | obj ts =>
    cases ts with
    | none => exact ⟨rfl, rfl, rfl, rfl, rfl, rfl, rfl, rfl, rfl⟩
    | some t =>
      by_cases h : t = "" <;>
        simp [Sock.handleEvent, Sock.calculateLatency, h]

lemma handleQuestionEvent_core (parse : String → Int) (s : Sock.SocketState)
    (et : String) (d : Sock.EventData) (iso : String) (now : Int) :
    (Sock.handleQuestionEvent parse s et d iso now).state.stats.eventsReceived =
        s.stats.eventsReceived + 1 ∧
    (Sock.handleQuestionEvent parse s et d iso now).state.stats.questionsReceived =
        s.stats.questionsReceived + 1 ∧
    (Sock.handleQuestionEvent parse s et d iso now).state.stats.lastEventTime =
        some iso ∧
    (Sock.handleQuestionEvent parse s et d iso now).state.stats.isConnected =
        s.stats.isConnected ∧
    (Sock.handleQuestionEvent parse s et d iso now).state.connectionTime =
        s.connectionTime ∧
    (Sock.handleQuestionEvent parse s et d iso now).state.reconnectAttempts =
        s.reconnectAttempts ∧
    (Sock.handleQuestionEvent parse s et d iso now).state.pendingTimers =
        s.pendingTimers ∧
    (Sock.handleQuestionEvent parse s et d iso now).state.isConnected =
        s.isConnected ∧
    (Sock.handleQuestionEvent parse s et d iso now).state.socketExists =
        s.socketExists := by
  cases d with
  | null => exact ⟨rfl, rfl, rfl, rfl, rfl, rfl, rfl, rfl, rfl⟩
  | obj ts =>
    cases ts with
    | none => exact ⟨rfl, rfl, rfl, rfl, rfl, rfl, rfl, rfl, rfl⟩
    | some t =>
      by_cases h : t = "" <;>
        simp [Sock.handleQuestionEvent, Sock.calculateLatency, h]

lemma onFrame_core (parse : String → Int) (s : Sock.SocketState)
    (name : String) (d : Sock.EventData) (iso : String) (now : Int) :
    (Sock.onFrame parse s name d iso now).state.connectionTime = s.connectionTime ∧
    (Sock.onFrame parse s name d iso now).state.reconnectAttempts =
        s.reconnectAttempts ∧
    (Sock.onFrame parse s name d iso now).state.pendingTimers = s.pendingTimers ∧
    (Sock.onFrame parse s name d iso now).state.isConnected = s.isConnected ∧
    (Sock.onFrame parse s name d iso now).state.socketExists = s.socketExists ∧
    ∃ a b : Nat, b ≤ a ∧
      (Sock.onFrame parse s name d iso now).state.stats.eventsReceived =
        s.stats.eventsReceived + a ∧
      (Sock.onFrame parse s name d iso now).state.stats.questionsReceived =
        s.stats.questionsReceived + b := by
  unfold Sock.onFrame
  split_ifs with h1 h2 h3
  · obtain ⟨he, hq, -, -, hc, hr, hp, hi, hs⟩ := handleEvent_core parse s name d iso now
    exact ⟨hc, hr, hp, hi, hs, 1, 0, by omega, he, by omega⟩
  · obtain ⟨he, hq, -, -, hc, hr, hp, hi, hs⟩ :=
      handleQuestionEvent_core parse s name d iso now
    exact ⟨hc, hr, hp, hi, hs, 1, 1, by omega, he, hq⟩
  · obtain ⟨he, hq, -, -, hc, hr, hp, hi, hs⟩ := handleEvent_core parse s name d iso now
    exact ⟨hc, hr, hp, hi, hs, 1, 0, by omega, he, by omega⟩
  · exact ⟨rfl, rfl, rfl, rfl, rfl, 0, 0, by omega, rfl, rfl⟩

lemma step_connectionTime (parse : String → Int) (s : Sock.SocketState) :
    ∀ op : Sock.SockOp,
    (Sock.step parse s op).1.connectionTime =
      (match op with
       | .connectOk t => some t
       | _ => s.connectionTime)
  | .connectCalled => rfl
  | .connectOk _ => rfl
  | .connectError j => by
      simp only [Sock.step, Sock.onConnectError]
      split_ifs <;> rfl
  | .disconnectEvt r j => by
      simp only [Sock.step, Sock.onDisconnect]
      split_ifs <;> rfl
  | .timerFire => by
      simp only [Sock.step, Sock.timerFire]
      split_ifs <;> rfl
  | .disconnectCall => rfl
  | .frame name d iso now => (onFrame_core parse s name d iso now).1
  | .subscribeLive => by
      simp only [Sock.step, Sock.subscribeToLiveMatches]
      split_ifs <;> rfl
  | .unsubscribeLive => by
      simp only [Sock.step, Sock.unsubscribeFromLiveMatches]
      split_ifs <;> rfl
  | .requestMatches => by
      simp only [Sock.step, Sock.requestCurrentMatches]
      split_ifs <;> rfl
  | .subscribeQuestions m => by
      simp only [Sock.step, Sock.subscribeToQuestions]
      split_ifs <;> rfl
  | .unsubscribeQuestions m => by
      simp only [Sock.step, Sock.unsubscribeFromQuestions]
      split_ifs <;> rfl
  | .statsCall now => rfl

lemma runTrace_connectionTime_ne (parse : String → Int) (ops : List Sock.SockOp) :
    ∀ s : Sock.SocketState,
    ((Sock.runTrace parse s ops).connectionTime ≠ none ↔
      (s.connectionTime ≠ none ∨ ∃ t, Sock.SockOp.connectOk t ∈ ops)) := by
  induction ops with
  | nil => intro s; simp [Sock.runTrace]
  | cons op ops ih =>
    intro s
    rw [Sock.runTrace, ih]
    have hct := step_connectionTime parse s op
    cases op <;>
      simp_all [List.mem_cons]

/-- C9: getStats is a pure read: the state is unchanged, every field
other than uptimeSeconds is the live counter/state value unchanged, and
uptimeSeconds is floor((now − connectionStartInstant)/1000) when a
connection start instant was ever recorded and 0 otherwise; over any run
from the initial state, a connection start instant is recorded exactly
when some connect success occurred. -/
theorem C9_theorem (parse : String → Int) (s : Sock.SocketState) (now : Int)
    (ops : List Sock.SockOp) :
    (Sock.getStats s now).2 = s ∧
    (Sock.getStats s now).1.eventsReceived = s.stats.eventsReceived ∧
    (Sock.getStats s now).1.questionsReceived = s.stats.questionsReceived ∧
    (Sock.getStats s now).1.averageLatency = s.stats.averageLatency ∧
    (Sock.getStats s now).1.isConnected = s.stats.isConnected ∧
    (Sock.getStats s now).1.lastEventTime = s.stats.lastEventTime ∧
    (Sock.getStats s now).1.uptimeSeconds =
      (match s.connectionTime with
       | some ct => Int.fdiv (now - ct) 1000
       | none => 0) ∧
    ((Sock.runTrace parse Sock.initialState ops).connectionTime ≠ none ↔
      ∃ t, Sock.SockOp.connectOk t ∈ ops) := by
  refine ⟨rfl, rfl, rfl, rfl, rfl, rfl, rfl, ?_⟩
  rw [runTrace_connectionTime_ne]
  simp [Sock.initialState]

/-- C1: the claim fails on the code.  In a run that connects, subscribes
to the live-match feed and to questions for match m1, then suffers an
involuntary disconnect and reconnects, the only subscribe requests ever
emitted are the two original ones — the successful reconnect re-emits
nothing.  Moreover a subscribe issued while disconnected returns false
and leaves the state unchanged: no topic is retained for later. -/
theorem C1_counterexample :
    ((Sock.runLog Sock.parse0 Sock.initialState
        [.connectCalled, .connectOk 0, .subscribeLive, .subscribeQuestions "m1",
         .disconnectEvt "transport close" 0, .timerFire, .connectCalled,
         .connectOk 2000]).2.1.filter Sock.Action.isEmit) =
      [.emit "matches:subscribe" none, .emit "questions:subscribe" (some "m1")] ∧
    Sock.subscribeToQuestions
        (Sock.runTrace Sock.parse0 Sock.initialState
          [.connectCalled, .connectOk 0, .subscribeLive, .subscribeQuestions "m1",
           .disconnectEvt "transport close" 0]) "m2" =
      (false,
       Sock.runTrace Sock.parse0 Sock.initialState
          [.connectCalled, .connectOk 0, .subscribeLive, .subscribeQuestions "m1",
           .disconnectEvt "transport close" 0],
       []) :=
  ⟨by decide, rfl⟩

/-- C1 (amended): the connect-success handler emits no commands at all —
there is no subscription set and no re-subscription on reconnect — and a
subscribe call made while disconnected returns false with no effect, so
topics requested while disconnected are not sent once connected. -/
theorem C1_theorem (s : Sock.SocketState) (now : Int) (m : String)
    (hdisc : s.isConnected = false) :
    (Sock.onConnect s now).2 = [] ∧
    Sock.subscribeToQuestions s m = (false, s, []) ∧
    Sock.subscribeToLiveMatches s = (false, s, []) := by
  refine ⟨rfl, ?_, ?_⟩ <;>
    simp [Sock.subscribeToQuestions, Sock.subscribeToLiveMatches, hdisc]

/-- C1 witness: the amended claim at the freshly constructed client. -/
theorem C1_witness :
    (Sock.initialState.isConnected = false) ∧
    ((Sock.onConnect Sock.initialState 7).2 = [] ∧
     Sock.subscribeToQuestions Sock.initialState "m1" =
       (false, Sock.initialState, []) ∧
     Sock.subscribeToLiveMatches Sock.initialState =
       (false, Sock.initialState, [])) :=
  ⟨rfl, C1_theorem Sock.initialState 7 "m1" rfl⟩

/-- C2: the claim fails on the code.  After a connect success and eleven
consecutive involuntary disconnects the attempt counter reaches 11,
exceeding the configured maximum of 10; and at counter 10 a further
involuntary disconnect still schedules a reconnect timer (the disconnect
handler never consults the maximum). -/
theorem C2_counterexample :
    (Sock.runTrace Sock.parse0 Sock.initialState
        (Sock.SockOp.connectCalled :: Sock.SockOp.connectOk 0 ::
          List.replicate 11
            (Sock.SockOp.disconnectEvt "transport close" 0))).reconnectAttempts
      = 11 ∧
    ((Sock.step Sock.parse0
        (Sock.runTrace Sock.parse0 Sock.initialState
          (Sock.SockOp.connectCalled :: Sock.SockOp.connectOk 0 ::
            List.replicate 10 (Sock.SockOp.disconnectEvt "transport close" 0)))
        (Sock.SockOp.disconnectEvt "transport close" 0)).2.1.filter
        Sock.Action.isSetTimer).length = 1 :=
  ⟨by decide, by decide⟩

/-- C2 (amended): each scheduling increments the attempt counter by
exactly 1 and each involuntary disconnect schedules a reconnect timer
regardless of the counter, so the counter can exceed the maximum of 10;
the connect_error path stops scheduling once the counter has reached the
maximum, and a pending timer fires connect() while the counter is at most
the maximum but is suppressed past it — suppression happens at
timer-fire, not at scheduling. -/
theorem C2_theorem (s : Sock.SocketState) (j : ℚ) (r : String)
    (hr : r ≠ "io client disconnect") :
    (Sock.scheduleReconnect s j).1.reconnectAttempts = s.reconnectAttempts + 1 ∧
    (Sock.onDisconnect s r j).1.reconnectAttempts = s.reconnectAttempts + 1 ∧
    ((Sock.onDisconnect s r j).2.filter Sock.Action.isSetTimer).length = 1 ∧
    (s.maxReconnectAttempts ≤ s.reconnectAttempts →
      (Sock.onConnectError s j).1.reconnectAttempts = s.reconnectAttempts ∧
      (Sock.onConnectError s j).2 = []) ∧
    (s.reconnectAttempts ≤ s.maxReconnectAttempts →
      (Sock.timerFire s).2 = [Sock.Action.callConnect]) ∧
    (s.maxReconnectAttempts < s.reconnectAttempts →
      (Sock.timerFire s).2 = []) := by
  refine ⟨rfl, ?_, ?_, ?_, ?_, ?_⟩
  · simp [Sock.onDisconnect, Sock.scheduleReconnect, hr]
  · simp [Sock.onDisconnect, Sock.scheduleReconnect, hr, Sock.Action.isSetTimer]
  · intro hmax
    have : ¬ (s.reconnectAttempts < s.maxReconnectAttempts) := by omega
    simp [Sock.onConnectError, this]
  · intro hle
    simp [Sock.timerFire, hle]
  · intro hlt
    have : ¬ (s.reconnectAttempts ≤ s.maxReconnectAttempts) := by omega
    simp [Sock.timerFire, this]

/-- C2 witness: the amended claim at the initial state with jitter 0 and
an involuntary disconnect reason. -/
theorem C2_witness :
    ("transport close" ≠ "io client disconnect") ∧
    ((Sock.scheduleReconnect Sock.initialState 0).1.reconnectAttempts =
       Sock.initialState.reconnectAttempts + 1 ∧
     (Sock.onDisconnect Sock.initialState "transport close" 0).1.reconnectAttempts =
       Sock.initialState.reconnectAttempts + 1 ∧
     ((Sock.onDisconnect Sock.initialState "transport close" 0).2.filter
        Sock.Action.isSetTimer).length = 1 ∧
     (Sock.initialState.maxReconnectAttempts ≤ Sock.initialState.reconnectAttempts →
       (Sock.onConnectError Sock.initialState 0).1.reconnectAttempts =
         Sock.initialState.reconnectAttempts ∧
       (Sock.onConnectError Sock.initialState 0).2 = []) ∧
     (Sock.initialState.reconnectAttempts ≤ Sock.initialState.maxReconnectAttempts →
       (Sock.timerFire Sock.initialState).2 = [Sock.Action.callConnect]) ∧
     (Sock.initialState.maxReconnectAttempts < Sock.initialState.reconnectAttempts →
       (Sock.timerFire Sock.initialState).2 = [])) :=
  ⟨by decide, C2_theorem Sock.initialState 0 "transport close" (by decide)⟩

/-- C3: the code violates the claim.  The transport disconnect caused by
an explicit disconnect() (reason "io client disconnect") indeed schedules
nothing; but disconnect() cancels no pending timer — in a run where an
involuntary disconnect scheduled a timer (counter 1) and disconnect() is
then called, the still-pending timer fires and its callback invokes
connect() because 1 ≤ 10: an automatic connect attempt occurs after the
explicit disconnect(). -/
theorem C3_theorem :
    (Sock.onDisconnect
        (Sock.runTrace Sock.parse0 Sock.initialState
          [.connectCalled, .connectOk 0]) "io client disconnect" 0).2 = [] ∧
    (Sock.runTrace Sock.parse0 Sock.initialState
        [.connectCalled, .connectOk 0, .disconnectEvt "transport close" 0,
         .disconnectCall]).pendingTimers = 1 ∧
    (Sock.runTrace Sock.parse0 Sock.initialState
        [.connectCalled, .connectOk 0, .disconnectEvt "transport close" 0,
         .disconnectCall]).reconnectAttempts = 1 ∧
    (Sock.step Sock.parse0
        (Sock.runTrace Sock.parse0 Sock.initialState
          [.connectCalled, .connectOk 0, .disconnectEvt "transport close" 0,
           .disconnectCall])
        Sock.SockOp.timerFire).2.1 = [Sock.Action.callConnect] :=
  ⟨by decide, by decide, by decide, by decide⟩

lemma handleEvent_notifs (parse : String → Int) (s : Sock.SocketState)
    (et : String) (ts : Option String) (iso : String) (now : Int) :
    ∃ lat, (Sock.handleEvent parse s et (.obj ts) iso now).notifs =
      [{ channel := "socket-event", eventType := et, data := .obj ts,
         latency := lat }] := by
  cases ts with
  | none => exact ⟨none, rfl⟩
  | some t =>
    by_cases h : t = ""
    · subst h; exact ⟨none, rfl⟩
    · refine ⟨some { latencyMs := now - parse t, eventTimestamp := t }, ?_⟩
      simp [Sock.handleEvent, Sock.calculateLatency, h]

lemma handleQuestionEvent_notifs (parse : String → Int) (s : Sock.SocketState)
    (et : String) (ts : Option String) (iso : String) (now : Int) :
    ∃ lat, (Sock.handleQuestionEvent parse s et (.obj ts) iso now).notifs =
      [{ channel := "socket-question", eventType := et, data := .obj ts,
         latency := lat }] := by
  cases ts with
  | none => exact ⟨none, rfl⟩
  | some t =>
    by_cases h : t = ""
    · subst h; exact ⟨none, rfl⟩
    · refine ⟨some { latencyMs := now - parse t, eventTimestamp := t }, ?_⟩
      simp [Sock.handleQuestionEvent, Sock.calculateLatency, h]

lemma mem_matchEventNames_not_question (name : String)
    (h : name ∈ Sock.matchEventNames) : name ∉ Sock.questionEventNames := by
  fin_cases h <;> decide

lemma mem_questionEventNames_not_match (name : String)
    (h : name ∈ Sock.questionEventNames) : name ∉ Sock.matchEventNames := by
  fin_cases h <;> decide

lemma mem_matchEventNames_starts (name : String)
    (h : name ∈ Sock.matchEventNames) :
    Sock.strStartsWith name "matches:" = true := by
  fin_cases h <;> decide

lemma mem_questionEventNames_starts (name : String)
    (h : name ∈ Sock.questionEventNames) :
    Sock.strStartsWith name "questions:" = true := by
  fin_cases h <;> decide

lemma onFrame_notifs_match (parse : String → Int) (s : Sock.SocketState)
    (name : String) (ts : Option String) (iso : String) (now : Int)
    (h : name ∈ Sock.matchEventNames) :
    ∃ lat, (Sock.onFrame parse s name (.obj ts) iso now).notifs =
      [{ channel := "socket-event", eventType := name, data := .obj ts,
         latency := lat }] := by
  unfold Sock.onFrame
  rw [if_pos h]
  exact handleEvent_notifs parse s name ts iso now

lemma onFrame_notifs_question (parse : String → Int) (s : Sock.SocketState)
    (name : String) (ts : Option String) (iso : String) (now : Int)
    (h : name ∈ Sock.questionEventNames) :
    ∃ lat, (Sock.onFrame parse s name (.obj ts) iso now).notifs =
      [{ channel := "socket-question", eventType := name, data := .obj ts,
         latency := lat }] := by
  unfold Sock.onFrame
  rw [if_neg (mem_questionEventNames_not_match name h), if_pos h]
  exact handleQuestionEvent_notifs parse s name ts iso now

lemma onFrame_notifs_generic (parse : String → Int) (s : Sock.SocketState)
    (name : String) (ts : Option String) (iso : String) (now : Int)
    (h1 : Sock.strStartsWith name "matches:" = false)
    (h2 : Sock.strStartsWith name "questions:" = false) :
    ∃ lat, (Sock.onFrame parse s name (.obj ts) iso now).notifs =
      [{ channel := "socket-event", eventType := name, data := .obj ts,
         latency := lat }] := by
  have hm : name ∉ Sock.matchEventNames := fun h => by
    rw [mem_matchEventNames_starts name h] at h1; cases h1
  have hq : name ∉ Sock.questionEventNames := fun h => by
    rw [mem_questionEventNames_starts name h] at h2; cases h2
  unfold Sock.onFrame
  rw [if_neg hm, if_neg hq, if_pos (by simp [h1, h2])]
  exact handleEvent_notifs parse s name ts iso now

lemma onFrame_notifs_dropped (parse : String → Int) (s : Sock.SocketState)
    (name : String) (d : Sock.EventData) (iso : String) (now : Int)
    (hm : name ∉ Sock.matchEventNames) (hq : name ∉ Sock.questionEventNames)
    (hs : Sock.strStartsWith name "matches:" = true ∨
          Sock.strStartsWith name "questions:" = true) :
    (Sock.onFrame parse s name d iso now).notifs = [] ∧
    (Sock.onFrame parse s name d iso now).state = s := by
  unfold Sock.onFrame
  rw [if_neg hm, if_neg hq, if_neg (by rcases hs with h | h <;> simp [h])]
  exact ⟨rfl, rfl⟩

/-- C5: the claim fails on the code.  A registered match frame and a
generic frame are republished under the same notification name
"socket-event" — the match class has no channel distinct from the generic
class — and frames whose name starts with "matches:" or "questions:"
without being one of the seven registered names are republished on no
channel at all. -/
theorem C5_counterexample :
    ((Sock.onFrame Sock.parse0 Sock.initialState "matches:data" (.obj none)
        "t" 0).notifs.map (fun n => n.channel)) = ["socket-event"] ∧
    ((Sock.onFrame Sock.parse0 Sock.initialState "player:update" (.obj none)
        "t" 0).notifs.map (fun n => n.channel)) = ["socket-event"] ∧
    (Sock.onFrame Sock.parse0 Sock.initialState "matches:scores" (.obj none)
        "t" 0).notifs = [] ∧
    (Sock.onFrame Sock.parse0 Sock.initialState "questions:removed" (.obj none)
        "t" 0).notifs = [] := by
  refine ⟨by decide, by decide, by decide, by decide⟩

/-- C5 (amended): classification is by exact registered name, not bare
prefix: the five registered matches:* names and every name with neither
reserved name-space are republished exactly once under "socket-event"
(match and generic frames share that channel), the two registered
questions:* names exactly once under the distinct "socket-question"
channel, and a name inside a reserved name-space that is not registered
is republished nowhere; no frame reaches more than one channel. -/
theorem C5_theorem (name : String) (ts : Option String) (iso : String)
    (now : Int) (s : Sock.SocketState) (parse : String → Int) :
    (name ∈ Sock.matchEventNames →
      ((Sock.onFrame parse s name (.obj ts) iso now).notifs.map
        (fun n => (n.channel, n.eventType))) = [("socket-event", name)]) ∧
    (name ∈ Sock.questionEventNames →
      ((Sock.onFrame parse s name (.obj ts) iso now).notifs.map
        (fun n => (n.channel, n.eventType))) = [("socket-question", name)]) ∧
    (Sock.strStartsWith name "matches:" = false →
      Sock.strStartsWith name "questions:" = false →
      ((Sock.onFrame parse s name (.obj ts) iso now).notifs.map
        (fun n => (n.channel, n.eventType))) = [("socket-event", name)]) ∧
    (name ∉ Sock.matchEventNames → name ∉ Sock.questionEventNames →
      (Sock.strStartsWith name "matches:" = true ∨
       Sock.strStartsWith name "questions:" = true) →
      (Sock.onFrame parse s name (.obj ts) iso now).notifs = []) := by
  refine ⟨fun h => ?_, fun h => ?_, fun h1 h2 => ?_, fun hm hq hs => ?_⟩
  · obtain ⟨lat, hl⟩ := onFrame_notifs_match parse s name ts iso now h
    simp [hl]
  · obtain ⟨lat, hl⟩ := onFrame_notifs_question parse s name ts iso now h
    simp [hl]
  · obtain ⟨lat, hl⟩ := onFrame_notifs_generic parse s name ts iso now h1 h2
    simp [hl]
  · exact (onFrame_notifs_dropped parse s name (.obj ts) iso now hm hq hs).1

/-- C5 witness: the amended routing at a registered question name and a
registered match name. -/
theorem C5_witness :
    ((Sock.onFrame Sock.parse0 Sock.initialState "questions:new" (.obj none)
        "t" 0).notifs.map (fun n => (n.channel, n.eventType))) =
      [("socket-question", "questions:new")] ∧
    ((Sock.onFrame Sock.parse0 Sock.initialState "matches:live" (.obj none)
        "t" 0).notifs.map (fun n => (n.channel, n.eventType))) =
      [("socket-event", "matches:live")] :=
  by
  have hq := C5_theorem "questions:new" none "t" 0 Sock.initialState Sock.parse0
  have hm := C5_theorem "matches:live" none "t" 0 Sock.initialState Sock.parse0
  exact ⟨hq.2.1 (by decide), hm.1 (by decide)⟩

/-- C8: the claim fails on the code for a wholly null/undefined payload:
the timestamp access inside calculateLatency throws, so the frame is not
republished — only the counter updates written before the access
survive. -/
theorem C8_counterexample :
    (Sock.handleEvent Sock.parse0 Sock.initialState "matches:data" .null
        "t" 0).threw = true ∧
    (Sock.handleEvent Sock.parse0 Sock.initialState "matches:data" .null
        "t" 0).notifs = [] ∧
    (Sock.handleEvent Sock.parse0 Sock.initialState "matches:data" .null
        "t" 0).state.stats.eventsReceived = 1 :=
  ⟨rfl, rfl, rfl⟩

/-- C8 (amended): for a frame whose payload is an object lacking a truthy
timestamp field, latency computation is skipped without an exception and
classification, counter updates and republishing proceed normally (one
notification with a null latency, no sample appended); but for a
null/undefined payload the timestamp access throws: the counters and
lastEventTime are still updated (those writes precede the access) and the
frame is not republished. -/
theorem C8_theorem (parse : String → Int) (s : Sock.SocketState)
    (et iso : String) (now : Int) (d : Sock.EventData)
    (hd : d = .obj none ∨ d = .obj (some "")) :
    (Sock.handleEvent parse s et d iso now).threw = false ∧
    (Sock.handleEvent parse s et d iso now).notifs =
      [{ channel := "socket-event", eventType := et, data := d,
         latency := none }] ∧
    (Sock.handleEvent parse s et d iso now).state =
      { s with stats := { s.stats with
          eventsReceived := s.stats.eventsReceived + 1
          lastEventTime := some iso } } ∧
    (Sock.handleQuestionEvent parse s et d iso now).threw = false ∧
    (Sock.handleQuestionEvent parse s et d iso now).notifs =
      [{ channel := "socket-question", eventType := et, data := d,
         latency := none }] ∧
    (Sock.handleQuestionEvent parse s et d iso now).state =
      { s with stats := { s.stats with
          questionsReceived := s.stats.questionsReceived + 1
          eventsReceived := s.stats.eventsReceived + 1
          lastEventTime := some iso } } ∧
    Sock.handleEvent parse s et .null iso now =
      { state := { s with stats := { s.stats with
            eventsReceived := s.stats.eventsReceived + 1
            lastEventTime := some iso } }
        notifs := [], threw := true } ∧
    Sock.handleQuestionEvent parse s et .null iso now =
      { state := { s with stats := { s.stats with
            questionsReceived := s.stats.questionsReceived + 1
            eventsReceived := s.stats.eventsReceived + 1
            lastEventTime := some iso } }
        notifs := [], threw := true } := by
  rcases hd with rfl | rfl <;>
    exact ⟨rfl, rfl, rfl, rfl, rfl, rfl, rfl, rfl⟩

/-- C8 witness: the amended claim at an object payload with no timestamp
field. -/
theorem C8_witness :
    ((Sock.EventData.obj none) = Sock.EventData.obj none ∨
     (Sock.EventData.obj none) = Sock.EventData.obj (some "")) ∧
    ((Sock.handleEvent Sock.parse0 Sock.initialState "matches:update"
        (.obj none) "iso" 3).threw = false ∧
     (Sock.handleEvent Sock.parse0 Sock.initialState "matches:update"
        (.obj none) "iso" 3).notifs =
       [{ channel := "socket-event", eventType := "matches:update",
          data := .obj none, latency := none }] ∧
     (Sock.handleEvent Sock.parse0 Sock.initialState "matches:update"
        (.obj none) "iso" 3).state =
       { Sock.initialState with stats := { Sock.initialState.stats with
           eventsReceived := Sock.initialState.stats.eventsReceived + 1
           lastEventTime := some "iso" } } ∧
     (Sock.handleQuestionEvent Sock.parse0 Sock.initialState "matches:update"
        (.obj none) "iso" 3).threw = false ∧
     (Sock.handleQuestionEvent Sock.parse0 Sock.initialState "matches:update"
        (.obj none) "iso" 3).notifs =
       [{ channel := "socket-question", eventType := "matches:update",
          data := .obj none, latency := none }] ∧
     (Sock.handleQuestionEvent Sock.parse0 Sock.initialState "matches:update"
        (.obj none) "iso" 3).state =
       { Sock.initialState with stats := { Sock.initialState.stats with
           questionsReceived := Sock.initialState.stats.questionsReceived + 1
           eventsReceived := Sock.initialState.stats.eventsReceived + 1
           lastEventTime := some "iso" } } ∧
     Sock.handleEvent Sock.parse0 Sock.initialState "matches:update" .null
        "iso" 3 =
       { state := { Sock.initialState with stats := { Sock.initialState.stats with
             eventsReceived := Sock.initialState.stats.eventsReceived + 1
             lastEventTime := some "iso" } }
         notifs := [], threw := true } ∧
     Sock.handleQuestionEvent Sock.parse0 Sock.initialState "matches:update"
        .null "iso" 3 =
       { state := { Sock.initialState with stats := { Sock.initialState.stats with
             questionsReceived := Sock.initialState.stats.questionsReceived + 1
             eventsReceived := Sock.initialState.stats.eventsReceived + 1
             lastEventTime := some "iso" } }
         notifs := [], threw := true }) :=
  ⟨Or.inl rfl,
   C8_theorem Sock.parse0 Sock.initialState "matches:update" "iso" 3
     (.obj none) (Or.inl rfl)⟩

lemma onFrame_filter_question (parse : String → Int) (s : Sock.SocketState)
    (f : Sock.Frame) (hf : f.data ≠ Sock.EventData.null) :
    (((Sock.onFrame parse s f.name f.data f.nowIso f.receivedAt).notifs.filter
        (fun n => n.channel == "socket-question")).map
        Sock.Notification.eventType) =
      (if f.name ∈ Sock.questionEventNames then [f.name] else []) := by
  obtain ⟨ts, hts⟩ : ∃ ts, f.data = Sock.EventData.obj ts := by
    cases h : f.data with
    | null => exact absurd h hf
    | obj ts => exact ⟨ts, rfl⟩
  have hne : (("socket-event" : String) == "socket-question") = false := by decide
  by_cases hm : f.name ∈ Sock.matchEventNames
  · obtain ⟨lat, hl⟩ := onFrame_notifs_match parse s f.name ts f.nowIso f.receivedAt hm
    rw [hts, hl, if_neg (mem_matchEventNames_not_question f.name hm)]
    simp [List.filter, hne]
  · by_cases hq : f.name ∈ Sock.questionEventNames
    · obtain ⟨lat, hl⟩ :=
        onFrame_notifs_question parse s f.name ts f.nowIso f.receivedAt hq
      rw [hts, hl, if_pos hq]
      simp [List.filter]
    · by_cases h1 : Sock.strStartsWith f.name "matches:" = true
      · rw [hts, (onFrame_notifs_dropped parse s f.name (.obj ts) f.nowIso
          f.receivedAt hm hq (Or.inl h1)).1, if_neg hq]
        rfl
      · by_cases h2 : Sock.strStartsWith f.name "questions:" = true
        · rw [hts, (onFrame_notifs_dropped parse s f.name (.obj ts) f.nowIso
            f.receivedAt hm hq (Or.inr h2)).1, if_neg hq]
          rfl
        · obtain ⟨lat, hl⟩ := onFrame_notifs_generic parse s f.name ts f.nowIso
            f.receivedAt (by simpa using h1) (by simpa using h2)
          rw [hts, hl, if_neg hq]
          simp [List.filter, hne]

lemma onFrame_filter_event (parse : String → Int) (s : Sock.SocketState)
    (f : Sock.Frame) (hf : f.data ≠ Sock.EventData.null) :
    (((Sock.onFrame parse s f.name f.data f.nowIso f.receivedAt).notifs.filter
        (fun n => n.channel == "socket-event")).map
        Sock.Notification.eventType) =
      (if Sock.isHandledGeneric f.name then [f.name] else []) := by
  obtain ⟨ts, hts⟩ : ∃ ts, f.data = Sock.EventData.obj ts := by
    cases h : f.data with
    | null => exact absurd h hf
    | obj ts => exact ⟨ts, rfl⟩
  have hne : (("socket-question" : String) == "socket-event") = false := by decide
  by_cases hm : f.name ∈ Sock.matchEventNames
  · obtain ⟨lat, hl⟩ := onFrame_notifs_match parse s f.name ts f.nowIso f.receivedAt hm
    have hg : Sock.isHandledGeneric f.name = true := by
      unfold Sock.isHandledGeneric
      simp [hm]
    rw [hts, hl, if_pos hg]
    simp [List.filter]
  · by_cases hq : f.name ∈ Sock.questionEventNames
    · obtain ⟨lat, hl⟩ :=
        onFrame_notifs_question parse s f.name ts f.nowIso f.receivedAt hq
      have hg : Sock.isHandledGeneric f.name = false := by
        unfold Sock.isHandledGeneric
        simp [hm, mem_questionEventNames_starts f.name hq]
      rw [hts, hl, if_neg (by simp [hg])]
      simp [List.filter, hne]
    · by_cases h1 : Sock.strStartsWith f.name "matches:" = true
      · have hg : Sock.isHandledGeneric f.name = false := by
          unfold Sock.isHandledGeneric
          simp [hm, h1]
        rw [hts, (onFrame_notifs_dropped parse s f.name (.obj ts) f.nowIso
          f.receivedAt hm hq (Or.inl h1)).1, if_neg (by simp [hg])]
        rfl
      · by_cases h2 : Sock.strStartsWith f.name "questions:" = true
        · have hg : Sock.isHandledGeneric f.name = false := by
            unfold Sock.isHandledGeneric
            simp [hm, h2]
          rw [hts, (onFrame_notifs_dropped parse s f.name (.obj ts) f.nowIso
            f.receivedAt hm hq (Or.inr h2)).1, if_neg (by simp [hg])]
          rfl
        · obtain ⟨lat, hl⟩ := onFrame_notifs_generic parse s f.name ts f.nowIso
            f.receivedAt (by simpa using h1) (by simpa using h2)
          have hg : Sock.isHandledGeneric f.name = true := by
            unfold Sock.isHandledGeneric
            simp [Bool.not_eq_true] at h1 h2
            simp [h1, h2]
          rw [hts, hl, if_pos hg]
          simp [List.filter]

lemma runFrames_order (parse : String → Int) (fs : List Sock.Frame) :
    ∀ s : Sock.SocketState, (∀ f ∈ fs, f.data ≠ Sock.EventData.null) →
    (((Sock.runFrames parse s fs).2.filter
        (fun n => n.channel == "socket-question")).map
        Sock.Notification.eventType =
      (fs.filter (fun f => f.name ∈ Sock.questionEventNames)).map
        Sock.Frame.name) ∧
    (((Sock.runFrames parse s fs).2.filter
        (fun n => n.channel == "socket-event")).map
        Sock.Notification.eventType =
      (fs.filter (fun f => Sock.isHandledGeneric f.name)).map
        Sock.Frame.name) := by
  induction fs with
  | nil => intro s h; exact ⟨rfl, rfl⟩
  | cons f fs ih =>
    intro s h
    have hf : f.data ≠ Sock.EventData.null := h f (List.mem_cons_self f fs)
    have hrest : ∀ g ∈ fs, g.data ≠ Sock.EventData.null :=
      fun g hg => h g (List.mem_cons_of_mem f hg)
    obtain ⟨ih1, ih2⟩ :=
      ih (Sock.onFrame parse s f.name f.data f.nowIso f.receivedAt).state hrest
    rw [Sock.runFrames]
    constructor
    · simp only [List.filter_append, List.map_append, List.filter_cons]
      rw [onFrame_filter_question parse s f hf, ih1]
      by_cases hq : f.name ∈ Sock.questionEventNames <;> simp [hq]
    · simp only [List.filter_append, List.map_append, List.filter_cons]
      rw [onFrame_filter_event parse s f hf, ih2]
      by_cases hg : Sock.isHandledGeneric f.name <;> simp [hg]

/-- C6: the claim fails on the code.  A frame named "matches:scores" —
whose name starts with "matches:" but is not one of the five registered
match names — reaches no listener and yields zero republished
notifications, contradicting one notification per inbound frame. -/
theorem C6_counterexample :
    (Sock.onFrame Sock.parse0 Sock.initialState "matches:scores" (.obj none)
        "t" 0).notifs = [] ∧
    (Sock.onFrame Sock.parse0 Sock.initialState "matches:scores" (.obj none)
        "t" 0).state = Sock.initialState :=
  ⟨by decide, rfl⟩

/-- C6 (amended): every inbound frame with a non-null payload whose name
is registered (or lies in neither reserved name-space) yields exactly one
republished notification, frames inside a reserved name-space with an
unregistered name yield none, and arrival order is preserved per class:
the event names seen on "socket-question" are exactly the question-class
frame names in arrival order, and likewise on "socket-event" for the
frames handled generically. -/
theorem C6_theorem (parse : String → Int) (s : Sock.SocketState)
    (fs : List Sock.Frame) (h : ∀ f ∈ fs, f.data ≠ Sock.EventData.null)
    (name : String) (ts : Option String) (iso : String) (now : Int) :
    ((name ∈ Sock.matchEventNames ∨ name ∈ Sock.questionEventNames ∨
        (Sock.strStartsWith name "matches:" = false ∧
         Sock.strStartsWith name "questions:" = false)) →
      (Sock.onFrame parse s name (.obj ts) iso now).notifs.length = 1) ∧
    (name ∉ Sock.matchEventNames → name ∉ Sock.questionEventNames →
      (Sock.strStartsWith name "matches:" = true ∨
       Sock.strStartsWith name "questions:" = true) →
      (Sock.onFrame parse s name (.obj ts) iso now).notifs = []) ∧
    (((Sock.runFrames parse s fs).2.filter
        (fun n => n.channel == "socket-question")).map
        Sock.Notification.eventType =
      (fs.filter (fun f => f.name ∈ Sock.questionEventNames)).map
        Sock.Frame.name) ∧
    (((Sock.runFrames parse s fs).2.filter
        (fun n => n.channel == "socket-event")).map
        Sock.Notification.eventType =
      (fs.filter (fun f => Sock.isHandledGeneric f.name)).map
        Sock.Frame.name) := by
  obtain ⟨ho1, ho2⟩ := runFrames_order parse fs s h
  refine ⟨?_, ?_, ho1, ho2⟩
  · rintro (hm | hq | ⟨h1, h2⟩)
    · obtain ⟨lat, hl⟩ := onFrame_notifs_match parse s name ts iso now hm
      simp [hl]
    · obtain ⟨lat, hl⟩ := onFrame_notifs_question parse s name ts iso now hq
      simp [hl]
    · obtain ⟨lat, hl⟩ := onFrame_notifs_generic parse s name ts iso now h1 h2
      simp [hl]
  · intro hm hq hs
    exact (onFrame_notifs_dropped parse s name (.obj ts) iso now hm hq hs).1

/-- C6 witness: the amended claim on a two-frame arrival sequence — one
question frame, one match frame — and the single-frame counts at a
registered match name. -/
theorem C6_witness :
    (∀ f ∈ [Sock.Frame.mk "questions:new" (.obj none) "t" 0,
            Sock.Frame.mk "matches:update" (.obj none) "t" 1],
        f.data ≠ Sock.EventData.null) ∧
    ((Sock.onFrame Sock.parse0 Sock.initialState "matches:update" (.obj none)
        "u" 2).notifs.length = 1 ∧
     ((Sock.runFrames Sock.parse0 Sock.initialState
          [Sock.Frame.mk "questions:new" (.obj none) "t" 0,
           Sock.Frame.mk "matches:update" (.obj none) "t" 1]).2.filter
        (fun n => n.channel == "socket-question")).map
        Sock.Notification.eventType = ["questions:new"] ∧
     ((Sock.runFrames Sock.parse0 Sock.initialState
          [Sock.Frame.mk "questions:new" (.obj none) "t" 0,
           Sock.Frame.mk "matches:update" (.obj none) "t" 1]).2.filter
        (fun n => n.channel == "socket-event")).map
        Sock.Notification.eventType = ["matches:update"]) := by
  have h : ∀ f ∈ [Sock.Frame.mk "questions:new" (.obj none) "t" 0,
            Sock.Frame.mk "matches:update" (.obj none) "t" 1],
      f.data ≠ Sock.EventData.null := by decide
  have ht := C6_theorem Sock.parse0 Sock.initialState
    [Sock.Frame.mk "questions:new" (.obj none) "t" 0,
     Sock.Frame.mk "matches:update" (.obj none) "t" 1] h
    "matches:update" none "u" 2
  refine ⟨h, ht.1 (Or.inl (by decide)), ?_, ?_⟩
  · rw [ht.2.2.1]
    decide
  · rw [ht.2.2.2]
    decide

lemma step_counters (parse : String → Int) (s : Sock.SocketState) :
    ∀ op : Sock.SockOp, ∃ a b : Nat, b ≤ a ∧
    (Sock.step parse s op).1.stats.eventsReceived = s.stats.eventsReceived + a ∧
    (Sock.step parse s op).1.stats.questionsReceived =
      s.stats.questionsReceived + b
  | .connectCalled => ⟨0, 0, le_refl 0, rfl, rfl⟩
  | .connectOk t => ⟨0, 0, le_refl 0, rfl, rfl⟩
  | .connectError j => by
      refine ⟨0, 0, le_refl 0, ?_, ?_⟩ <;>
      · simp only [Sock.step, Sock.onConnectError, Sock.scheduleReconnect]
        split_ifs <;> rfl
  | .disconnectEvt r j => by
      refine ⟨0, 0, le_refl 0, ?_, ?_⟩ <;>
      · simp only [Sock.step, Sock.onDisconnect, Sock.scheduleReconnect]
        split_ifs <;> rfl
  | .timerFire => by
      refine ⟨0, 0, le_refl 0, ?_, ?_⟩ <;>
      · simp only [Sock.step, Sock.timerFire]
        split_ifs <;> rfl
  | .disconnectCall => ⟨0, 0, le_refl 0, rfl, rfl⟩
  | .frame name d iso now => by
      obtain ⟨-, -, -, -, -, a, b, hab, he, hq⟩ :=
        onFrame_core parse s name d iso now
      exact ⟨a, b, hab, he, hq⟩
  | .subscribeLive => by
      refine ⟨0, 0, le_refl 0, ?_, ?_⟩ <;>
      · simp only [Sock.step, Sock.subscribeToLiveMatches]
        split_ifs <;> rfl
  | .unsubscribeLive => by
      refine ⟨0, 0, le_refl 0, ?_, ?_⟩ <;>
      · simp only [Sock.step, Sock.unsubscribeFromLiveMatches]
        split_ifs <;> rfl
  | .requestMatches => by
      refine ⟨0, 0, le_refl 0, ?_, ?_⟩ <;>
      · simp only [Sock.step, Sock.requestCurrentMatches]
        split_ifs <;> rfl
  | .subscribeQuestions m => by
      refine ⟨0, 0, le_refl 0, ?_, ?_⟩ <;>
      · simp only [Sock.step, Sock.subscribeToQuestions]
        split_ifs <;> rfl
  | .unsubscribeQuestions m => by
      refine ⟨0, 0, le_refl 0, ?_, ?_⟩ <;>
      · simp only [Sock.step, Sock.unsubscribeFromQuestions]
        split_ifs <;> rfl
  | .statsCall now => ⟨0, 0, le_refl 0, rfl, rfl⟩

lemma runTrace_counters_inv (parse : String → Int) (ops : List Sock.SockOp) :
    ∀ s : Sock.SocketState,
    s.stats.questionsReceived ≤ s.stats.eventsReceived →
    (Sock.runTrace parse s ops).stats.questionsReceived ≤
      (Sock.runTrace parse s ops).stats.eventsReceived := by
  induction ops with
  | nil => intro s h; exact h
  | cons op ops ih =>
    intro s h
    rw [Sock.runTrace]
    apply ih
    obtain ⟨a, b, hab, he, hq⟩ := step_counters parse s op
    rw [he, hq]
    omega

/-- C10: the claim fails on the code.  The frame "questions:removed" is a
question-class name by prefix, yet it reaches no handler and increments
neither counter — so neither "each question-class event increments both
counters by exactly 1" nor "each other event increments only
eventsReceived" holds for it. -/
theorem C10_counterexample :
    Sock.strStartsWith "questions:removed" "questions:" = true ∧
    (Sock.onFrame Sock.parse0 Sock.initialState "questions:removed" (.obj none)
        "t" 0).state.stats.eventsReceived = 0 ∧
    (Sock.onFrame Sock.parse0 Sock.initialState "questions:removed" (.obj none)
        "t" 0).state.stats.questionsReceived = 0 :=
  ⟨by decide, by decide, by decide⟩

/-- C10 (amended): questionsReceived ≤ eventsReceived after every
operation sequence from the initial state and neither counter ever
decreases at a step; a frame with a registered question name increments
both counters by exactly 1, a frame handled generically (registered match
name, or neither reserved name-space) increments only eventsReceived by
1, and a frame inside a reserved name-space with an unregistered name
increments neither. -/
theorem C10_theorem (parse : String → Int) (ops : List Sock.SockOp)
    (s : Sock.SocketState) (op : Sock.SockOp) (name : String)
    (d : Sock.EventData) (iso : String) (now : Int) :
    (Sock.runTrace parse Sock.initialState ops).stats.questionsReceived ≤
      (Sock.runTrace parse Sock.initialState ops).stats.eventsReceived ∧
    s.stats.eventsReceived ≤ (Sock.step parse s op).1.stats.eventsReceived ∧
    s.stats.questionsReceived ≤
      (Sock.step parse s op).1.stats.questionsReceived ∧
    (name ∈ Sock.questionEventNames →
      (Sock.onFrame parse s name d iso now).state.stats.questionsReceived =
        s.stats.questionsReceived + 1 ∧
      (Sock.onFrame parse s name d iso now).state.stats.eventsReceived =
        s.stats.eventsReceived + 1) ∧
    ((name ∈ Sock.matchEventNames ∨
        (Sock.strStartsWith name "matches:" = false ∧
         Sock.strStartsWith name "questions:" = false)) →
      (Sock.onFrame parse s name d iso now).state.stats.eventsReceived =
        s.stats.eventsReceived + 1 ∧
      (Sock.onFrame parse s name d iso now).state.stats.questionsReceived =
        s.stats.questionsReceived) ∧
    (name ∉ Sock.matchEventNames → name ∉ Sock.questionEventNames →
      (Sock.strStartsWith name "matches:" = true ∨
       Sock.strStartsWith name "questions:" = true) →
      (Sock.onFrame parse s name d iso now).state.stats = s.stats) := by
  refine ⟨runTrace_counters_inv parse ops Sock.initialState (le_refl 0),
          ?_, ?_, ?_, ?_, ?_⟩
  · obtain ⟨a, b, hab, he, hq⟩ := step_counters parse s op
    rw [he]; omega
  · obtain ⟨a, b, hab, he, hq⟩ := step_counters parse s op
    rw [hq]; omega
  · intro hq
    have hstep : (Sock.onFrame parse s name d iso now) =
        Sock.handleQuestionEvent parse s name d iso now := by
      unfold Sock.onFrame
      rw [if_neg (mem_questionEventNames_not_match name hq), if_pos hq]
    rw [hstep]
    obtain ⟨he, hqq, -⟩ := handleQuestionEvent_core parse s name d iso now
    exact ⟨hqq, he⟩
  · rintro (hm | ⟨h1, h2⟩)
    · have hstep : (Sock.onFrame parse s name d iso now) =
          Sock.handleEvent parse s name d iso now := by
        unfold Sock.onFrame
        rw [if_pos hm]
      rw [hstep]
      obtain ⟨he, hqq, -⟩ := handleEvent_core parse s name d iso now
      exact ⟨he, hqq⟩
    · have hm : name ∉ Sock.matchEventNames := fun h => by
        rw [mem_matchEventNames_starts name h] at h1; cases h1
      have hq : name ∉ Sock.questionEventNames := fun h => by
        rw [mem_questionEventNames_starts name h] at h2; cases h2
      have hstep : (Sock.onFrame parse s name d iso now) =
          Sock.handleEvent parse s name d iso now := by
        unfold Sock.onFrame
        rw [if_neg hm, if_neg hq, if_pos (by simp [h1, h2])]
      rw [hstep]
      obtain ⟨he, hqq, -⟩ := handleEvent_core parse s name d iso now
      exact ⟨he, hqq⟩
  · intro hm hq hs
    rw [(onFrame_notifs_dropped parse s name d iso now hm hq hs).2]

/-- C10 witness: the amended claim at a registered question frame, a
registered match frame and an unregistered question-space frame, on the
empty operation sequence. -/
theorem C10_witness :
    ("questions:generated" ∈ Sock.questionEventNames) ∧
    ((Sock.onFrame Sock.parse0 Sock.initialState "questions:generated"
        (.obj none) "t" 0).state.stats.questionsReceived =
      Sock.initialState.stats.questionsReceived + 1 ∧
     (Sock.onFrame Sock.parse0 Sock.initialState "questions:generated"
        (.obj none) "t" 0).state.stats.eventsReceived =
      Sock.initialState.stats.eventsReceived + 1) ∧
    (Sock.runTrace Sock.parse0 Sock.initialState []).stats.questionsReceived ≤
      (Sock.runTrace Sock.parse0 Sock.initialState []).stats.eventsReceived :=
  ⟨by decide,
   (C10_theorem Sock.parse0 [] Sock.initialState Sock.SockOp.connectCalled
      "questions:generated" (.obj none) "t" 0).2.2.2.1 (by decide),
   (C10_theorem Sock.parse0 [] Sock.initialState Sock.SockOp.connectCalled
      "questions:generated" (.obj none) "t" 0).1⟩
